import Mathlib

/-
Verification of the Eventure ticket-workflow orchestration.

The pages of the repository sequence calls to an external data store
(tables events, tickets, user_profiles / profiles, resale_listings) and to
a chain contract reached through a browser wallet.  The embedding below
models the store as lists of rows, time as a natural number, and every
external outcome (wallet present, chain receipt confirmed, each database
write accepted) as an explicit boolean parameter of the flow.  Each flow
function is a direct sequential translation of the corresponding handler
in the source pages.
-/

namespace Eventure

/-- Row of the events table, with the columns the pages read and write.
Dates are modelled as natural numbers; the JS comparisons
`new Date(a) < new Date(b)` become `a < b`.  Wallet addresses are modelled
as already lower-cased strings, so the lower-cased comparison in the mint
flow becomes plain string equality. -/
structure EventRow where
  event_id : Nat
  date : Nat
  price_wei : Nat
  max_ticket : Nat
  ticket_sold : Nat
  organizer_wallet : String
  organizer_email : String
  is_cancelled : Bool
  reputation_req : Int
  deriving DecidableEq

/-- Row of the tickets table.  Columns not set by an insert take the
database defaults false. -/
structure TicketRow where
  id : Nat
  event_id : Nat
  owner_address : String
  user_email : String
  attended : Bool
  refunded : Bool
  reputation_decreased : Bool
  deriving DecidableEq

/-- Row of the user_profiles table (the legacy MyTickets page reads the
same columns from a table called profiles; both are modelled by this one
collection).  Reputation is an integer score. -/
structure ProfileRow where
  id : Nat
  email : String
  reputation : Int
  total_tickets_minted : Nat
  total_events_attended : Nat
  deriving DecidableEq

/-- Row of the resale_listings table.  The ticket_id column is used by the
Resaleing page; the insert in the MyTickets page does not set it, so a
fresh listing carries the database default 0. -/
structure ListingRow where
  id : Nat
  ticket_id : Nat
  event_id : Nat
  seller_address : String
  seller_email : String
  price_wei : Nat
  is_sold : Bool
  deriving DecidableEq

/-- The external data store: one list of rows per table. -/
structure DB where
  events : List EventRow
  tickets : List TicketRow
  profiles : List ProfileRow
  listings : List ListingRow
  deriving DecidableEq

/-- select from events ... eq event_id ... single. -/
def findEvent (db : DB) (eid : Nat) : Option EventRow :=
  db.events.find? (fun r => r.event_id == eid)

/-- select from user_profiles ... eq id ... single. -/
def findProfileById (db : DB) (uid : Nat) : Option ProfileRow :=
  db.profiles.find? (fun p => p.id == uid)

/-- select from user_profiles ... eq email ... single. -/
def findProfileByEmail (db : DB) (email : String) : Option ProfileRow :=
  db.profiles.find? (fun p => p.email == email)

/-- isEventExpired of login.jsx: the event date is strictly before now. -/
def isEventExpired (eventDate now : Nat) : Bool :=
  decide (eventDate < now)

/-- External outcomes consumed by the mint flow: wallet provider present,
chain mint transaction confirmed, and acceptance of each database write
performed after confirmation. -/
structure MintEnv where
  hasEthereum : Bool
  chainOk : Bool
  insertOk : Bool
  soldUpdateOk : Bool
  mintedUpdateOk : Bool
  deriving DecidableEq

/-- Result of a flow that may call the chain: the final store, whether a
chain transaction was submitted, and whether the flow reached its success
alert. -/
structure FlowResult where
  db : DB
  chainCalled : Bool
  ok : Bool
  deriving DecidableEq

/-- Post-confirmation effects of handleBuyTicket: insert the ticket row,
best-effort increment of events.ticket_sold (the freshly fetched value
eventData.ticket_sold plus one), then re-fetch the profile and best-effort
increment of total_tickets_minted.  The inserted ticket takes a
store-assigned fresh id, modelled as the current length of the tickets
table; its unspecified columns take the database defaults false. -/
def mintRecordEffects (event : EventRow) (userEmail walletAddress : String)
    (uid : Nat) (eventData : EventRow) (env : MintEnv) (db : DB) : DB :=
  let db1 : DB := { db with tickets := db.tickets ++
    [⟨db.tickets.length, event.event_id, walletAddress, userEmail,
      false, false, false⟩] }
  let db2 : DB :=
    if env.soldUpdateOk then
      { db1 with events := db1.events.map (fun r =>
          if r.event_id = event.event_id then
            { r with ticket_sold := eventData.ticket_sold + 1 }
          else r) }
    else db1
  match findProfileById db2 uid with
  | none => db2
  | some profileData =>
    if env.mintedUpdateOk then
      { db2 with profiles := db2.profiles.map (fun p =>
          if p.id = uid then
            { p with total_tickets_minted := profileData.total_tickets_minted + 1 }
          else p) }
    else db2

/-- handleBuyTicket of login.jsx.  The argument event is the row snapshot
the dashboard passes in; the availability check re-fetches the row from
the store.  Every thrown error is caught by the surrounding try/catch and
ends the flow. -/
def handleBuyTicket (event : EventRow) (userEmail walletAddress : String)
    (authUser : Option Nat) (now : Nat) (env : MintEnv) (db : DB) : FlowResult :=
  if walletAddress = ("") then ⟨db, false, false⟩
  else if env.hasEthereum = false then ⟨db, false, false⟩
  else if isEventExpired event.date now then ⟨db, false, false⟩
  else if walletAddress = event.organizer_wallet then ⟨db, false, false⟩
  else
    match authUser with
    | none => ⟨db, false, false⟩
    | some uid =>
      match findEvent db event.event_id with
      | none => ⟨db, false, false⟩
      | some eventData =>
        if eventData.max_ticket ≤ eventData.ticket_sold then ⟨db, false, false⟩
        else
          match findProfileById db uid with
          | none => ⟨db, false, false⟩
          | some userProfile =>
            if userProfile.reputation < event.reputation_req then ⟨db, false, false⟩
            else if env.chainOk = false then ⟨db, true, false⟩
            else if env.insertOk = false then ⟨db, true, false⟩
            else ⟨mintRecordEffects event userEmail walletAddress uid eventData env db,
                  true, true⟩

/-- C1.  Whenever one of the four preconditions fails — the event is
already expired, the buyer wallet is the organizer wallet, the freshly
fetched events row is sold out, or the authenticated buyer profile has
reputation below the event reputation_req — the mint flow submits no
chain transaction and leaves the store unchanged. -/
theorem mint_precondition_no_chain_no_writes
    (event : EventRow) (userEmail walletAddress : String)
    (authUser : Option Nat) (now : Nat) (env : MintEnv) (db : DB)
    (h : isEventExpired event.date now = true
       ∨ walletAddress = event.organizer_wallet
       ∨ (∃ row, findEvent db event.event_id = some row ∧
            row.max_ticket ≤ row.ticket_sold)
       ∨ (∃ uid p, authUser = some uid ∧ findProfileById db uid = some p ∧
            p.reputation < event.reputation_req)) :
    (handleBuyTicket event userEmail walletAddress authUser now env db).chainCalled
        = false ∧
    (handleBuyTicket event userEmail walletAddress authUser now env db).db = db := by
  suffices hh : handleBuyTicket event userEmail walletAddress authUser now env db
      = ⟨db, false, false⟩ by rw [hh]; exact ⟨rfl, rfl⟩
  unfold handleBuyTicket
  rcases h with h | h | ⟨row, hr, hs⟩ | ⟨uid, p, ha, hp, hrep⟩
  · simp [h]
  · simp [h]
  · split_ifs <;> try rfl
    all_goals cases authUser with
    | none => rfl
    | some u => rw [hr]; simp [hs]
  · subst ha
    split_ifs <;> try rfl
    all_goals cases hfe : findEvent db event.event_id with
    | none => rfl
    | some ed => simp [hp, hrep]

/-- Witness for C1 at a concrete expired event. -/
theorem mint_precondition_no_chain_no_writes_inst :
    isEventExpired 1 5 = true ∧
    ((handleBuyTicket ⟨1, 1, 100, 10, 0, ("orga"), ("o@x"), false, 0⟩ ("b@x") ("0xb")
        (some 1) 5 ⟨true, true, true, true, true⟩ ⟨[], [], [], []⟩).chainCalled
      = false ∧
     (handleBuyTicket ⟨1, 1, 100, 10, 0, ("orga"), ("o@x"), false, 0⟩ ("b@x") ("0xb")
        (some 1) 5 ⟨true, true, true, true, true⟩ ⟨[], [], [], []⟩).db
      = ⟨[], [], [], []⟩) :=
  ⟨by decide,
   mint_precondition_no_chain_no_writes _ _ _ _ _ _ _ (Or.inl (by decide))⟩

/-- find? commutes with a map that does not change the tested key. -/
theorem find?_map_key (f : EventRow → EventRow) (p : EventRow → Bool)
    (l : List EventRow) (hf : ∀ r, p (f r) = p r) :
    (l.map f).find? p = (l.find? p).map f := by
  induction l with
  | nil => rfl
  | cons a t ih =>
    cases hpa : p a with
    | true =>
      have : p (f a) = true := by rw [hf, hpa]
      simp [List.find?_cons, this, hpa]
    | false =>
      have : p (f a) = false := by rw [hf, hpa]
      simp [List.find?_cons, this, hpa, ih]

/-- The tickets table after the post-confirmation effects: exactly the old
rows with the one new ticket appended. -/
theorem mintRecordEffects_tickets (event : EventRow)
    (userEmail walletAddress : String) (uid : Nat) (eventData : EventRow)
    (env : MintEnv) (db : DB) :
    (mintRecordEffects event userEmail walletAddress uid eventData env db).tickets
      = db.tickets ++ [⟨db.tickets.length, event.event_id, walletAddress,
          userEmail, false, false, false⟩] := by
  unfold mintRecordEffects
  cases hs : env.soldUpdateOk <;> simp [hs] <;> split <;> try rfl
  all_goals split <;> rfl

/-- The events table after the post-confirmation effects: updated with the
incremented counter when the best-effort write succeeds, untouched
otherwise. -/
theorem mintRecordEffects_events (event : EventRow)
    (userEmail walletAddress : String) (uid : Nat) (eventData : EventRow)
    (env : MintEnv) (db : DB) :
    (mintRecordEffects event userEmail walletAddress uid eventData env db).events
      = if env.soldUpdateOk then
          db.events.map (fun r =>
            if r.event_id = event.event_id then
              { r with ticket_sold := eventData.ticket_sold + 1 }
            else r)
        else db.events := by
  unfold mintRecordEffects
  cases hs : env.soldUpdateOk <;> simp [hs] <;> split <;> try rfl
  all_goals split <;> rfl

/-- C2.  When every precondition passes and the chain mint confirms, the
flow succeeds, a ticket row linking the buyer email to the event is
appended, and (when the best-effort counter write is accepted) the stored
events row carries ticket_sold incremented by exactly one over the freshly
fetched value. -/
theorem mint_success_records_ticket
    (event : EventRow) (userEmail walletAddress : String)
    (uid : Nat) (now : Nat) (env : MintEnv) (db : DB)
    (eventData : EventRow) (p : ProfileRow)
    (hw : ¬ walletAddress = (""))
    (he : env.hasEthereum = true)
    (hexp : isEventExpired event.date now = false)
    (horg : ¬ walletAddress = event.organizer_wallet)
    (hfetch : findEvent db event.event_id = some eventData)
    (hsold : eventData.ticket_sold < eventData.max_ticket)
    (hprof : findProfileById db uid = some p)
    (hrep : ¬ p.reputation < event.reputation_req)
    (hchain : env.chainOk = true) (hins : env.insertOk = true) :
    (handleBuyTicket event userEmail walletAddress (some uid) now env db).ok = true ∧
    (handleBuyTicket event userEmail walletAddress (some uid) now env db).chainCalled
      = true ∧
    (handleBuyTicket event userEmail walletAddress (some uid) now env db).db.tickets
      = db.tickets ++ [⟨db.tickets.length, event.event_id, walletAddress,
          userEmail, false, false, false⟩] ∧
    (env.soldUpdateOk = true →
      (handleBuyTicket event userEmail walletAddress (some uid) now env
          db).db.events.find? (fun r => r.event_id == event.event_id)
        = some { eventData with ticket_sold := eventData.ticket_sold + 1 }) := by
  have hns : ¬ eventData.max_ticket ≤ eventData.ticket_sold := by omega
  have hrun : handleBuyTicket event userEmail walletAddress (some uid) now env db
      = ⟨mintRecordEffects event userEmail walletAddress uid eventData env db,
         true, true⟩ := by
    unfold handleBuyTicket
    simp [hw, he, hexp, horg, hfetch, hns, hprof, hrep, hchain, hins]
  rw [hrun]
  refine ⟨rfl, rfl, mintRecordEffects_tickets _ _ _ _ _ _ _, fun hsu => ?_⟩
  rw [mintRecordEffects_events, if_pos hsu]
  have hkey : ∀ r : EventRow,
      ((fun r : EventRow => r.event_id == event.event_id)
        ((fun r : EventRow =>
          if r.event_id = event.event_id then
            { r with ticket_sold := eventData.ticket_sold + 1 }
          else r) r))
      = (fun r : EventRow => r.event_id == event.event_id) r := by
    intro r
    by_cases hr : r.event_id = event.event_id <;> simp [hr]
  rw [find?_map_key _ _ _ hkey]
  have hED : eventData.event_id = event.event_id := by
    have := List.find?_some hfetch
    simpa using this
  rw [show db.events.find? (fun r => r.event_id == event.event_id)
        = some eventData from hfetch]
  simp [hED]

/-- Witness for C2 at a concrete store with one event and one profile. -/
theorem mint_success_records_ticket_inst :
    (handleBuyTicket ⟨1, 10, 100, 5, 2, ("orga"), ("o@x"), false, 0⟩ ("b@x") ("0xb")
        (some 1) 5 ⟨true, true, true, true, true⟩
        ⟨[⟨1, 10, 100, 5, 2, ("orga"), ("o@x"), false, 0⟩], [],
          [⟨1, ("b@x"), 3, 0, 0⟩], []⟩).ok = true ∧
    (handleBuyTicket ⟨1, 10, 100, 5, 2, ("orga"), ("o@x"), false, 0⟩ ("b@x") ("0xb")
        (some 1) 5 ⟨true, true, true, true, true⟩
        ⟨[⟨1, 10, 100, 5, 2, ("orga"), ("o@x"), false, 0⟩], [],
          [⟨1, ("b@x"), 3, 0, 0⟩], []⟩).chainCalled = true ∧
    (handleBuyTicket ⟨1, 10, 100, 5, 2, ("orga"), ("o@x"), false, 0⟩ ("b@x") ("0xb")
        (some 1) 5 ⟨true, true, true, true, true⟩
        ⟨[⟨1, 10, 100, 5, 2, ("orga"), ("o@x"), false, 0⟩], [],
          [⟨1, ("b@x"), 3, 0, 0⟩], []⟩).db.tickets
      = [] ++ [⟨0, 1, ("0xb"), ("b@x"), false, false, false⟩] ∧
    (true = true →
      (handleBuyTicket ⟨1, 10, 100, 5, 2, ("orga"), ("o@x"), false, 0⟩ ("b@x") ("0xb")
          (some 1) 5 ⟨true, true, true, true, true⟩
          ⟨[⟨1, 10, 100, 5, 2, ("orga"), ("o@x"), false, 0⟩], [],
            [⟨1, ("b@x"), 3, 0, 0⟩], []⟩).db.events.find?
          (fun r => r.event_id == 1)
        = some ⟨1, 10, 100, 5, 3, ("orga"), ("o@x"), false, 0⟩) :=
  mint_success_records_ticket ⟨1, 10, 100, 5, 2, ("orga"), ("o@x"), false, 0⟩
    ("b@x") ("0xb") 1 5 ⟨true, true, true, true, true⟩
    ⟨[⟨1, 10, 100, 5, 2, ("orga"), ("o@x"), false, 0⟩], [],
      [⟨1, ("b@x"), 3, 0, 0⟩], []⟩
    ⟨1, 10, 100, 5, 2, ("orga"), ("o@x"), false, 0⟩ ⟨1, ("b@x"), 3, 0, 0⟩
    (by decide) (by decide) (by decide)
    (by decide) (by decide) (by decide) (by decide) (by decide) (by decide)
    (by decide)

/-- External outcomes consumed by the marketplace purchase flow of
Resale.jsx: wallet provider present, the confirm dialog accepted, the
chain receipt status equal to one, and acceptance of the two database
writes that follow. -/
structure ResaleEnv where
  hasEthereum : Bool
  confirmed : Bool
  chainOk : Bool
  deleteOk : Bool
  ticketUpdOk : Bool
  deriving DecidableEq

/-- handlePurchaseResale of Resale.jsx: reject when not signed in or when
the buyer email equals the seller email, ask for confirmation, require the
wallet provider, call buyResaleTicket on the chain and await the receipt,
and only on a confirmed receipt delete the listing row and reassign the
ticket rows of that event and seller to the buyer. -/
def handlePurchaseResale (listing : ListingRow) (authEmail : Option String)
    (buyerAddress : String) (env : ResaleEnv) (db : DB) : FlowResult :=
  match authEmail with
  | none => ⟨db, false, false⟩
  | some email =>
    if email = listing.seller_email then ⟨db, false, false⟩
    else if env.confirmed = false then ⟨db, false, false⟩
    else if env.hasEthereum = false then ⟨db, false, false⟩
    else if env.chainOk = false then ⟨db, true, false⟩
    else if env.deleteOk = false then ⟨db, true, false⟩
    else
      let db1 : DB := { db with listings :=
        (db.listings.filter (fun l => !(l.id == listing.id))) }
      if env.ticketUpdOk = false then ⟨db1, true, false⟩
      else ⟨{ db1 with tickets := db1.tickets.map (fun t =>
          if t.event_id = listing.event_id ∧ t.user_email = listing.seller_email
          then { t with user_email := email, owner_address := buyerAddress }
          else t) }, true, true⟩

/-- handleBuy of Resaleing.jsx: after requiring the wallet provider and a
signed-in user, it first writes the store — reassigning the ticket row
with id equal to listing.ticket_id to the cached wallet address and the
buyer email, then marking the listing row as sold — and only afterwards
submits the chain safeTransferFrom call and awaits it. -/
def handleBuy (listing : ListingRow) (walletAddress : String)
    (authEmail : Option String) (hasEthereum chainOk : Bool)
    (db : DB) : FlowResult :=
  if hasEthereum = false then ⟨db, false, false⟩
  else
    match authEmail with
    | none => ⟨db, false, false⟩
    | some email =>
      let db1 : DB := { db with tickets := db.tickets.map (fun t =>
        if t.id = listing.ticket_id
        then { t with owner_address := walletAddress, user_email := email }
        else t) }
      let db2 : DB := { db1 with listings := db1.listings.map (fun l =>
        if l.id = listing.id then { l with is_sold := true } else l) }
      if chainOk = false then ⟨db2, true, false⟩ else ⟨db2, true, true⟩

/-- C3 counterexample.  In the Resaleing.jsx buy flow the store is written
before the chain call: with one listing and its ticket, a run whose chain
transfer fails still leaves the listing marked sold and the ticket
reassigned, so the store write was not preceded by a confirmed receipt. -/
theorem handleBuy_writes_before_chain_cex :
    (handleBuy ⟨1, 1, 1, ("sellerw"), ("s@x"), 100, false⟩ ("0xbuyer")
        (some ("b@x")) true false
        ⟨[], [⟨1, 1, ("sellerw"), ("s@x"), false, false, false⟩], [],
          [⟨1, 1, 1, ("sellerw"), ("s@x"), 100, false⟩]⟩).ok = false ∧
    (handleBuy ⟨1, 1, 1, ("sellerw"), ("s@x"), 100, false⟩ ("0xbuyer")
        (some ("b@x")) true false
        ⟨[], [⟨1, 1, ("sellerw"), ("s@x"), false, false, false⟩], [],
          [⟨1, 1, 1, ("sellerw"), ("s@x"), 100, false⟩]⟩).db.listings
      = [⟨1, 1, 1, ("sellerw"), ("s@x"), 100, true⟩] ∧
    (handleBuy ⟨1, 1, 1, ("sellerw"), ("s@x"), 100, false⟩ ("0xbuyer")
        (some ("b@x")) true false
        ⟨[], [⟨1, 1, ("sellerw"), ("s@x"), false, false, false⟩], [],
          [⟨1, 1, 1, ("sellerw"), ("s@x"), 100, false⟩]⟩).db.tickets
      = [⟨1, 1, ("0xbuyer"), ("b@x"), false, false, false⟩] := by
  decide

/-- C3 as amended.  In the marketplace purchase flow handlePurchaseResale
the chain call comes first: when no chain transaction is submitted, or
when the receipt is not confirmed, the store is unchanged; and on a
confirmed receipt with both writes accepted the listing row is deleted and
the ticket rows of that event and seller are reassigned to the buyer. -/
theorem purchase_resale_chain_first (listing : ListingRow)
    (authEmail : Option String) (buyerAddress : String) (env : ResaleEnv)
    (db : DB) :
    ((handlePurchaseResale listing authEmail buyerAddress env db).chainCalled
        = false →
      (handlePurchaseResale listing authEmail buyerAddress env db).db = db) ∧
    (env.chainOk = false →
      (handlePurchaseResale listing authEmail buyerAddress env db).db = db) ∧
    (∀ email, authEmail = some email → ¬ email = listing.seller_email →
      env.confirmed = true → env.hasEthereum = true → env.chainOk = true →
      env.deleteOk = true → env.ticketUpdOk = true →
      (handlePurchaseResale listing authEmail buyerAddress env db).ok = true ∧
      (handlePurchaseResale listing authEmail buyerAddress env db).db.listings
        = db.listings.filter (fun l => !(l.id == listing.id)) ∧
      (handlePurchaseResale listing authEmail buyerAddress env db).db.tickets
        = db.tickets.map (fun t =>
            if t.event_id = listing.event_id ∧
                t.user_email = listing.seller_email
            then { t with user_email := email, owner_address := buyerAddress }
            else t)) := by
  refine ⟨?_, ?_, ?_⟩
  · unfold handlePurchaseResale
    split <;> (try (intro h; rfl)) <;> split_ifs <;> intro h <;>
      first | rfl | exact absurd h (by simp)
  · unfold handlePurchaseResale
    split <;> (try (intro h; rfl)) <;> split_ifs <;> intro h <;>
      first | rfl | simp_all
  · intro email ha hne hc hhe hck hdel hupd
    subst ha
    unfold handlePurchaseResale
    simp [hne, hc, hhe, hck, hdel, hupd]

/-- Witness for C3 as amended: a confirmed purchase by a distinct buyer
deletes the listing and reassigns the ticket. -/
theorem purchase_resale_chain_first_inst :
    (handlePurchaseResale ⟨1, 0, 1, ("sellerw"), ("s@x"), 100, false⟩
        (some ("b@x")) ("0xbuyer") ⟨true, true, true, true, true⟩
        ⟨[], [⟨1, 1, ("sellerw"), ("s@x"), false, false, false⟩], [],
          [⟨1, 0, 1, ("sellerw"), ("s@x"), 100, false⟩]⟩).ok = true ∧
    (handlePurchaseResale ⟨1, 0, 1, ("sellerw"), ("s@x"), 100, false⟩
        (some ("b@x")) ("0xbuyer") ⟨true, true, true, true, true⟩
        ⟨[], [⟨1, 1, ("sellerw"), ("s@x"), false, false, false⟩], [],
          [⟨1, 0, 1, ("sellerw"), ("s@x"), 100, false⟩]⟩).db.listings
      = [⟨1, 0, 1, ("sellerw"), ("s@x"), 100, false⟩].filter
          (fun l => !(l.id == 1)) ∧
    (handlePurchaseResale ⟨1, 0, 1, ("sellerw"), ("s@x"), 100, false⟩
        (some ("b@x")) ("0xbuyer") ⟨true, true, true, true, true⟩
        ⟨[], [⟨1, 1, ("sellerw"), ("s@x"), false, false, false⟩], [],
          [⟨1, 0, 1, ("sellerw"), ("s@x"), 100, false⟩]⟩).db.tickets
      = [⟨1, 1, ("sellerw"), ("s@x"), false, false, false⟩].map (fun t =>
          if t.event_id = 1 ∧ t.user_email = ("s@x")
          then { t with user_email := ("b@x"), owner_address := ("0xbuyer") }
          else t) :=
  (purchase_resale_chain_first ⟨1, 0, 1, ("sellerw"), ("s@x"), 100, false⟩
    (some ("b@x")) ("0xbuyer") ⟨true, true, true, true, true⟩
    ⟨[], [⟨1, 1, ("sellerw"), ("s@x"), false, false, false⟩], [],
      [⟨1, 0, 1, ("sellerw"), ("s@x"), 100, false⟩]⟩).2.2 ("b@x") rfl
    (by decide) rfl rfl rfl rfl rfl

/-- C4 counterexample.  The Resaleing.jsx buy flow performs no
buyer-equals-seller check: with the signed-in user equal to the seller,
the flow still submits the chain call and mutates the store. -/
theorem handleBuy_self_purchase_cex :
    (handleBuy ⟨1, 1, 1, ("sellerw"), ("s@x"), 100, false⟩ ("0xs")
        (some ("s@x")) true true
        ⟨[], [⟨1, 1, ("sellerw"), ("s@x"), false, false, false⟩], [],
          [⟨1, 1, 1, ("sellerw"), ("s@x"), 100, false⟩]⟩).chainCalled = true ∧
    (handleBuy ⟨1, 1, 1, ("sellerw"), ("s@x"), 100, false⟩ ("0xs")
        (some ("s@x")) true true
        ⟨[], [⟨1, 1, ("sellerw"), ("s@x"), false, false, false⟩], [],
          [⟨1, 1, 1, ("sellerw"), ("s@x"), 100, false⟩]⟩).db.listings
      = [⟨1, 1, 1, ("sellerw"), ("s@x"), 100, true⟩] := by
  decide

/-- C4 as amended.  In the marketplace purchase flow handlePurchaseResale
a buyer whose email equals the seller email of the listing is rejected
before any chain call and with the store unchanged. -/
theorem purchase_resale_rejects_self (listing : ListingRow)
    (email buyerAddress : String) (env : ResaleEnv) (db : DB)
    (hself : email = listing.seller_email) :
    (handlePurchaseResale listing (some email) buyerAddress env db).chainCalled
      = false ∧
    (handlePurchaseResale listing (some email) buyerAddress env db).db = db := by
  unfold handlePurchaseResale
  simp [hself]

/-- Witness for C4 as amended at a concrete self-purchase attempt. -/
theorem purchase_resale_rejects_self_inst :
    ("s@x") = (("s@x") : String) ∧
    ((handlePurchaseResale ⟨1, 0, 1, ("sellerw"), ("s@x"), 100, false⟩
        (some ("s@x")) ("0xs") ⟨true, true, true, true, true⟩
        ⟨[], [], [], [⟨1, 0, 1, ("sellerw"), ("s@x"), 100, false⟩]⟩).chainCalled
      = false ∧
     (handlePurchaseResale ⟨1, 0, 1, ("sellerw"), ("s@x"), 100, false⟩
        (some ("s@x")) ("0xs") ⟨true, true, true, true, true⟩
        ⟨[], [], [], [⟨1, 0, 1, ("sellerw"), ("s@x"), 100, false⟩]⟩).db
      = ⟨[], [], [], [⟨1, 0, 1, ("sellerw"), ("s@x"), 100, false⟩]⟩) :=
  ⟨rfl, purchase_resale_rejects_self ⟨1, 0, 1, ("sellerw"), ("s@x"), 100, false⟩
    ("s@x") ("0xs") ⟨true, true, true, true, true⟩
    ⟨[], [], [], [⟨1, 0, 1, ("sellerw"), ("s@x"), 100, false⟩]⟩ rfl⟩

/-- Reputation written by the missed-event penalty:
Math.max(0, reputation - 2). -/
def missedNewRep (rep : Int) : Int := max 0 (rep - 2)

/-- Reputation written by the organizer cancellation penalty:
Math.max(0, (reputation or 0) - 5). -/
def cancelNewRep (rep : Int) : Int := max 0 (rep - 5)

/-- Reputation written by the attendance reward of the second MyEvents
page: (reputation or 0) + 5 on a profile whose reputation column was
selected. -/
def attendNewRep (rep : Int) : Int := rep + 5

/-- Missed-ticket predicate shared by both MyTickets pages: the joined
event date has passed, the ticket is not attended and the event is not
cancelled.  With no joined event the date comparison is false and the
ticket is not treated as missed. -/
def isMissedTicket (now : Nat) (db : DB) (t : TicketRow) : Bool :=
  match findEvent db t.event_id with
  | none => false
  | some ev => decide (ev.date < now) && !t.attended && !ev.is_cancelled

/-- Per-ticket step of fetchTickets in Mytickets.jsx: a missed ticket
whose reputation_decreased guard is still false triggers the penalty
write on the user_profiles row and sets the guard on the tickets row; a
missing profile row skips both writes. -/
def processTicketGuarded (email : String) (now : Nat) (db : DB)
    (t : TicketRow) : DB :=
  if isMissedTicket now db t && !t.reputation_decreased then
    match findProfileByEmail db email with
    | none => db
    | some userData =>
      { db with
        profiles := (db.profiles.map (fun q =>
          if q.email = email
          then { q with reputation := missedNewRep userData.reputation }
          else q)),
        tickets := (db.tickets.map (fun r =>
          if r.id = t.id then { r with reputation_decreased := true } else r)) }
  else db

/-- fetchTickets of Mytickets.jsx: fetch the signed-in user's ticket rows
and process each one in turn. -/
def fetchTicketsGuarded (email : String) (now : Nat) (db : DB) : DB :=
  (db.tickets.filter (fun t => t.user_email == email)).foldl
    (processTicketGuarded email now) db

/-- Per-ticket step of fetchTickets in the legacy MyTickets page: a missed
ticket always triggers the penalty write on the profile row, and the
write meant to mark the ticket as processed sets attended to false, which
leaves the row exactly as it was. -/
def processTicketLegacy (email : String) (now : Nat) (db : DB)
    (t : TicketRow) : DB :=
  if isMissedTicket now db t then
    match findProfileByEmail db email with
    | none => db
    | some userData =>
      { db with
        profiles := (db.profiles.map (fun q =>
          if q.email = email
          then { q with reputation := missedNewRep userData.reputation }
          else q)),
        tickets := (db.tickets.map (fun r =>
          if r.id = t.id then { r with attended := false } else r)) }
  else db

/-- fetchTickets of the legacy MyTickets page (it reads the profile row
from a table named profiles; both profile tables are modelled by the one
profiles collection). -/
def fetchTicketsLegacy (email : String) (now : Nat) (db : DB) : DB :=
  (db.tickets.filter (fun t => t.user_email == email)).foldl
    (processTicketLegacy email now) db

/-- C5.  The guarded fetchTickets of Mytickets.jsx applies the missed
event penalty once: starting from reputation 10 with one missed ticket, a
first fetch leaves 8 and a second fetch still leaves 8.  The legacy
MyTickets page, whose own comment says its ticket write is meant to avoid
repeated reputation deductions, has no effective guard: the same two
fetches leave reputation 6, decrementing again on the repeat. -/
theorem legacy_missed_penalty_double_decrement :
    findProfileByEmail
      (fetchTicketsLegacy ("u@x") 5
        (fetchTicketsLegacy ("u@x") 5
          ⟨[⟨1, 1, 100, 10, 1, ("ow"), ("o@x"), false, 0⟩],
            [⟨1, 1, ("w"), ("u@x"), false, false, false⟩],
            [⟨1, ("u@x"), 10, 0, 0⟩], []⟩)) ("u@x")
      = some ⟨1, ("u@x"), 6, 0, 0⟩ ∧
    findProfileByEmail
      (fetchTicketsGuarded ("u@x") 5
        ⟨[⟨1, 1, 100, 10, 1, ("ow"), ("o@x"), false, 0⟩],
          [⟨1, 1, ("w"), ("u@x"), false, false, false⟩],
          [⟨1, ("u@x"), 10, 0, 0⟩], []⟩) ("u@x")
      = some ⟨1, ("u@x"), 8, 0, 0⟩ ∧
    findProfileByEmail
      (fetchTicketsGuarded ("u@x") 5
        (fetchTicketsGuarded ("u@x") 5
          ⟨[⟨1, 1, 100, 10, 1, ("ow"), ("o@x"), false, 0⟩],
            [⟨1, 1, ("w"), ("u@x"), false, false, false⟩],
            [⟨1, ("u@x"), 10, 0, 0⟩], []⟩)) ("u@x")
      = some ⟨1, ("u@x"), 8, 0, 0⟩ := by
  decide

/-- Result of a flow that only touches the store. -/
structure DbResult where
  db : DB
  ok : Bool
  deriving DecidableEq

/-- Acceptance of the writes issued by the mark-attendance handlers: the
tickets update, the first profile update, and the second profile update
of the first MyEvents page (the second page issues a single combined
profile update, governed by statsUpdOk). -/
structure AttendEnv where
  ticketUpdOk : Bool
  statsUpdOk : Bool
  repUpdOk : Bool
  deriving DecidableEq

/-- handleMarkAttendance of the second MyEvents page: mark the ticket rows
of the (event, attendee email) pair attended, then fetch the profile row
with its total_events_attended and reputation columns and write both
increments in one update.  A missing profile row is only warned about. -/
def handleMarkAttendanceV2 (eventId : Nat) (userEmail : String)
    (env : AttendEnv) (db : DB) : DbResult :=
  if env.ticketUpdOk = false then ⟨db, false⟩
  else
    let db1 : DB := { db with tickets := (db.tickets.map (fun t =>
      if t.event_id = eventId ∧ t.user_email = userEmail
      then { t with attended := true } else t)) }
    match findProfileByEmail db1 userEmail with
    | none => ⟨db1, true⟩
    | some userProfile =>
      if env.statsUpdOk = false then ⟨db1, false⟩
      else ⟨{ db1 with profiles := (db1.profiles.map (fun q =>
          if q.email = userEmail
          then { q with
            total_events_attended := userProfile.total_events_attended + 1,
            reputation := attendNewRep userProfile.reputation }
          else q)) }, true⟩

/-- handleMarkAttendance of the first MyEvents page.  Its profile query
selects only the total_events_attended column, so the later read of the
reputation field on that projected record yields the JS value undefined,
and the expression (userProfile.reputation || 0) + 5 evaluates to 0 + 5:
the second update overwrites the stored reputation with 5 regardless of
its prior value. -/
def handleMarkAttendanceV1 (eventId : Nat) (userEmail : String)
    (env : AttendEnv) (db : DB) : DbResult :=
  if env.ticketUpdOk = false then ⟨db, false⟩
  else
    let db1 : DB := { db with tickets := (db.tickets.map (fun t =>
      if t.event_id = eventId ∧ t.user_email = userEmail
      then { t with attended := true } else t)) }
    match findProfileByEmail db1 userEmail with
    | none => ⟨db1, true⟩
    | some userProfile =>
      if env.statsUpdOk = false then ⟨db1, false⟩
      else
        let db2 : DB := { db1 with profiles := (db1.profiles.map (fun q =>
          if q.email = userEmail
          then { q with total_events_attended :=
              userProfile.total_events_attended + 1 }
          else q)) }
        if env.repUpdOk = false then ⟨db2, false⟩
        else ⟨{ db2 with profiles := (db2.profiles.map (fun q =>
            if q.email = userEmail
            then { q with reputation := (0 : Int) + 5 }
            else q)) }, true⟩

/-- C6.  One invocation of mark-attendance on an attendee whose profile
holds reputation 10 and 3 attended events: the first MyEvents page marks
the ticket and increments total_events_attended, but writes reputation 5
instead of 15 — its profile query selects only total_events_attended, so
the increment is computed from an absent field — while the second page
yields the stated 15 = 10 + 5. -/
theorem markAttendance_v1_reputation_overwrite :
    (handleMarkAttendanceV1 7 ("a@x") ⟨true, true, true⟩
        ⟨[], [⟨1, 7, ("w"), ("a@x"), false, false, false⟩],
          [⟨1, ("a@x"), 10, 0, 3⟩], []⟩).db.profiles
      = [⟨1, ("a@x"), 5, 0, 4⟩] ∧
    (handleMarkAttendanceV1 7 ("a@x") ⟨true, true, true⟩
        ⟨[], [⟨1, 7, ("w"), ("a@x"), false, false, false⟩],
          [⟨1, ("a@x"), 10, 0, 3⟩], []⟩).db.tickets
      = [⟨1, 7, ("w"), ("a@x"), true, false, false⟩] ∧
    (handleMarkAttendanceV2 7 ("a@x") ⟨true, true, true⟩
        ⟨[], [⟨1, 7, ("w"), ("a@x"), false, false, false⟩],
          [⟨1, ("a@x"), 10, 0, 3⟩], []⟩).db.profiles
      = [⟨1, ("a@x"), 15, 0, 4⟩] := by
  decide

/-- External outcomes consumed by handleCancelEvent: the confirm dialog
and the acceptance of the is_cancelled update (the per-ticket refund
writes and the reputation write are awaited without error checks). -/
structure CancelEnv where
  confirmed : Bool
  cancelUpdOk : Bool
  deriving DecidableEq

/-- Per-row refund write: update tickets set refunded true where id. -/
def setRefunded (tid : Nat) (r : TicketRow) : TicketRow :=
  if r.id = tid then { r with refunded := true } else r

/-- Effects of handleCancelEvent once the checks pass: mark the event row
cancelled, fetch the non-refunded tickets of the event and mark each one
refunded in its own update, then write the floored organizer reputation. -/
def cancelEventEffects (event : EventRow) (db : DB) : DB :=
  let db1 : DB := { db with events := (db.events.map (fun r =>
    if r.event_id = event.event_id then { r with is_cancelled := true } else r)) }
  let fetched := db1.tickets.filter (fun t =>
    decide (t.event_id = event.event_id) && !t.refunded)
  let db2 : DB := fetched.foldl (fun s t =>
    { s with tickets := (s.tickets.map (setRefunded t.id)) }) db1
  match findProfileByEmail db2 event.organizer_email with
  | none => db2
  | some organizerProfile =>
    { db2 with profiles := (db2.profiles.map (fun q =>
      if q.email = event.organizer_email
      then { q with reputation := cancelNewRep organizerProfile.reputation }
      else q)) }

/-- handleCancelEvent of the second MyEvents page: after the confirm
dialog, reject when the event date already passed, then apply the
cancellation effects. -/
def handleCancelEvent (event : EventRow) (now : Nat) (env : CancelEnv)
    (db : DB) : DbResult :=
  if env.confirmed = false then ⟨db, false⟩
  else if event.date < now then ⟨db, false⟩
  else if env.cancelUpdOk = false then ⟨db, false⟩
  else ⟨cancelEventEffects event db, true⟩

/-- A fold of per-ticket refund writes is one map of the composed
per-row updates. -/
theorem refundFold_db (l : List TicketRow) (s : DB) :
    l.foldl (fun s t => { s with tickets := (s.tickets.map (setRefunded t.id)) }) s
      = { s with tickets := (s.tickets.map (fun r =>
          l.foldl (fun x t => setRefunded t.id x) r)) } := by
  induction l generalizing s with
  | nil => simp
  | cons a tl ih => simp [List.foldl_cons, ih, List.map_map, Function.comp]

/-- A refund write keeps the row id. -/
theorem setRefunded_id (tid : Nat) (r : TicketRow) :
    (setRefunded tid r).id = r.id := by
  unfold setRefunded; split <;> rfl

/-- A refund write keeps the event reference. -/
theorem setRefunded_event (tid : Nat) (r : TicketRow) :
    (setRefunded tid r).event_id = r.event_id := by
  unfold setRefunded; split <;> rfl

/-- A refund write never clears the refunded flag. -/
theorem setRefunded_mono (tid : Nat) (r : TicketRow) (h : r.refunded = true) :
    (setRefunded tid r).refunded = true := by
  unfold setRefunded; split <;> simp [h]

/-- The composed refund writes keep the event reference. -/
theorem refundChain_event (l : List TicketRow) (r : TicketRow) :
    (l.foldl (fun x t => setRefunded t.id x) r).event_id = r.event_id := by
  induction l generalizing r with
  | nil => rfl
  | cons a tl ih => rw [List.foldl_cons, ih, setRefunded_event]

/-- The composed refund writes never clear the refunded flag. -/
theorem refundChain_mono (l : List TicketRow) (r : TicketRow)
    (h : r.refunded = true) :
    (l.foldl (fun x t => setRefunded t.id x) r).refunded = true := by
  induction l generalizing r with
  | nil => exact h
  | cons a tl ih => rw [List.foldl_cons]; exact ih _ (setRefunded_mono _ _ h)

/-- A row whose id occurs in the processed list ends up refunded. -/
theorem refundChain_hits (l : List TicketRow) (r : TicketRow)
    (h : ∃ t ∈ l, t.id = r.id) :
    (l.foldl (fun x t => setRefunded t.id x) r).refunded = true := by
  induction l generalizing r with
  | nil => rcases h with ⟨t, ht, _⟩; cases ht
  | cons a tl ih =>
    rw [List.foldl_cons]
    rcases h with ⟨t, ht, hid⟩
    rcases List.mem_cons.mp ht with rfl | htl
    · refine refundChain_mono _ _ ?_
      unfold setRefunded
      rw [if_pos hid.symm]
    · exact ih _ ⟨t, htl, by rw [setRefunded_id, hid]⟩

/-- The tickets table after the cancellation effects, in mapped form. -/
theorem cancelEventEffects_tickets_eq (event : EventRow) (db : DB) :
    (cancelEventEffects event db).tickets
      = db.tickets.map (fun r =>
          (db.tickets.filter (fun t =>
            decide (t.event_id = event.event_id) && !t.refunded)).foldl
            (fun x t => setRefunded t.id x) r) := by
  unfold cancelEventEffects
  simp only [refundFold_db]
  split <;> rfl

/-- The events table after the cancellation effects. -/
theorem cancelEventEffects_events_eq (event : EventRow) (db : DB) :
    (cancelEventEffects event db).events
      = db.events.map (fun r =>
          if r.event_id = event.event_id then { r with is_cancelled := true }
          else r) := by
  unfold cancelEventEffects
  simp only [refundFold_db]
  split <;> rfl

/-- C7.  Cancel-event leaves the store untouched when the event date is
already in the past; otherwise, once confirmed and with the cancellation
update accepted, it succeeds, the event rows with that id carry
is_cancelled true, and every ticket row of that event — in particular
every then-outstanding one — carries refunded true. -/
theorem cancel_event_spec (event : EventRow) (now : Nat) (env : CancelEnv)
    (db : DB) :
    (event.date < now →
      (handleCancelEvent event now env db).db = db ∧
      (handleCancelEvent event now env db).ok = false) ∧
    (¬ event.date < now → env.confirmed = true → env.cancelUpdOk = true →
      (handleCancelEvent event now env db).ok = true ∧
      (∀ r ∈ (handleCancelEvent event now env db).db.events,
        r.event_id = event.event_id → r.is_cancelled = true) ∧
      (∀ t ∈ (handleCancelEvent event now env db).db.tickets,
        t.event_id = event.event_id → t.refunded = true)) := by
  constructor
  · intro h
    unfold handleCancelEvent
    by_cases hc : env.confirmed = false
    · simp [hc]
    · simp [hc, h]
  · intro h hc hu
    have hrun : handleCancelEvent event now env db
        = ⟨cancelEventEffects event db, true⟩ := by
      unfold handleCancelEvent
      simp [h, hc, hu]
    rw [hrun]
    refine ⟨rfl, ?_, ?_⟩
    · intro r hr hid
      rw [cancelEventEffects_events_eq] at hr
      obtain ⟨r0, _, rfl⟩ := List.mem_map.mp hr
      by_cases h0 : r0.event_id = event.event_id
      · simp [h0]
      · simp only [if_neg h0] at hid ⊢
        exact absurd hid h0
    · intro t ht hev
      rw [cancelEventEffects_tickets_eq] at ht
      obtain ⟨r0, hr0, rfl⟩ := List.mem_map.mp ht
      by_cases h0 : r0.refunded = true
      · exact refundChain_mono _ _ h0
      · have hev0 : r0.event_id = event.event_id := by
          rw [← refundChain_event (db.tickets.filter (fun t =>
            decide (t.event_id = event.event_id) && !t.refunded)) r0]
          exact hev
        refine refundChain_hits _ _ ⟨r0, List.mem_filter.mpr ⟨hr0, ?_⟩, rfl⟩
        simp [hev0, h0]

/-- Witness for C7: a still-future event is cancelled successfully. -/
theorem cancel_event_spec_inst :
    (¬ (10 : Nat) < 5) ∧
    (handleCancelEvent ⟨1, 10, 100, 5, 1, ("ow"), ("o@x"), false, 0⟩ 5
        ⟨true, true⟩
        ⟨[⟨1, 10, 100, 5, 1, ("ow"), ("o@x"), false, 0⟩],
          [⟨1, 1, ("w"), ("u@x"), false, false, false⟩],
          [⟨1, ("o@x"), 3, 0, 0⟩], []⟩).ok = true :=
  ⟨by decide,
   ((cancel_event_spec ⟨1, 10, 100, 5, 1, ("ow"), ("o@x"), false, 0⟩ 5
      ⟨true, true⟩
      ⟨[⟨1, 10, 100, 5, 1, ("ow"), ("o@x"), false, 0⟩],
        [⟨1, 1, ("w"), ("u@x"), false, false, false⟩],
        [⟨1, ("o@x"), 3, 0, 0⟩], []⟩).2 (by decide) rfl rfl).1⟩

/-- C8.  No reputation-adjusting computation drives the score below 0:
the missed-event penalty and the cancellation penalty floor the new value
at 0 — in particular reputation 1 under the penalty of 2 yields 0, not
minus one — and the attendance reward of the second MyEvents page never
decreases the score. -/
theorem reputation_floor_invariant (rep : Int) :
    0 ≤ missedNewRep rep ∧ 0 ≤ cancelNewRep rep ∧
    missedNewRep 1 = 0 ∧ rep ≤ attendNewRep rep := by
  refine ⟨le_max_left 0 _, le_max_left 0 _, by decide, ?_⟩
  unfold attendNewRep
  omega

/-- canResale of the MyTickets page: the event is not passed, not
cancelled, and the ticket not attended. -/
def canResale (t : TicketRow) (ev : EventRow) (now : Nat) : Bool :=
  !(decide (ev.date < now)) && !ev.is_cancelled && !t.attended

/-- Listing a ticket for resale from the MyTickets page.  The Resale
button is rendered only when canResale holds and the ticket is not
already listed by this seller; clicking it runs handleResale, which
requires a signed-in user and inserts one resale_listings row copying the
price_wei of the joined event.  With no joined event the handler throws
while building the insert payload (it reads ticket.events.price_wei) and
inserts nothing. -/
def resaleListClick (t : TicketRow) (now : Nat) (authEmail : Option String)
    (newId : Nat) (insertOk : Bool) (db : DB) : DB :=
  match findEvent db t.event_id with
  | none => db
  | some ev =>
    match authEmail with
    | none => db
    | some email =>
      let onResale := db.listings.any (fun l =>
        decide (l.event_id = t.event_id) && decide (l.seller_email = email) &&
          !l.is_sold)
      if canResale t ev now && !onResale then
        if insertOk then
          { db with listings := db.listings ++
            [⟨newId, 0, t.event_id, t.owner_address, email, ev.price_wei, false⟩] }
        else db
      else db

/-- C9.  Every listing present after a resale click is either one that
was already in the store, or the freshly created row — and the latter
only exists when the joined event is not passed, not cancelled and the
ticket not attended, and it copies the price_wei of the event. -/
theorem resale_listing_only_valid (t : TicketRow) (now : Nat)
    (authEmail : Option String) (newId : Nat) (insertOk : Bool) (db : DB)
    (ev : EventRow) (hev : findEvent db t.event_id = some ev) :
    ∀ l ∈ (resaleListClick t now authEmail newId insertOk db).listings,
      l ∈ db.listings ∨
      (¬ ev.date < now ∧ ev.is_cancelled = false ∧ t.attended = false ∧
        l.price_wei = ev.price_wei ∧ l.event_id = t.event_id ∧
        l.is_sold = false) := by
  intro l hl
  unfold resaleListClick at hl
  rw [hev] at hl
  cases authEmail with
  | none => exact Or.inl hl
  | some email =>
    simp only [] at hl
    by_cases hg : (canResale t ev now &&
        !(db.listings.any (fun l =>
          decide (l.event_id = t.event_id) && decide (l.seller_email = email) &&
            !l.is_sold))) = true
    · rw [if_pos hg] at hl
      by_cases hins : insertOk = true
      · rw [if_pos hins] at hl
        rcases List.mem_append.mp hl with hold | hnew
        · exact Or.inl hold
        · have hcr : canResale t ev now = true := by
            have := Bool.and_eq_true_iff.mp hg
            exact this.1
          have hcr3 := Bool.and_eq_true_iff.mp hcr
          have hcr12 := Bool.and_eq_true_iff.mp hcr3.1
          refine Or.inr ⟨?_, ?_, ?_, ?_, ?_, ?_⟩
          · have := hcr12.1
            simpa using this
          · have := hcr12.2
            simpa using this
          · have := hcr3.2
            simpa using this
          · rcases List.mem_singleton.mp hnew with rfl
            rfl
          · rcases List.mem_singleton.mp hnew with rfl
            rfl
          · rcases List.mem_singleton.mp hnew with rfl
            rfl
      · rw [if_neg hins] at hl
        exact Or.inl hl
    · rw [if_neg hg] at hl
      exact Or.inl hl

/-- Witness for C9: a valid, unlisted ticket is listed at the price of
the event. -/
theorem resale_listing_only_valid_inst :
    ((⟨1, 0, 2, ("w"), ("u@x"), 100, false⟩ : ListingRow) ∈
      (resaleListClick ⟨1, 2, ("w"), ("u@x"), false, false, false⟩ 5
        (some ("u@x")) 1 true
        ⟨[⟨2, 10, 100, 5, 1, ("ow"), ("o@x"), false, 0⟩],
          [⟨1, 2, ("w"), ("u@x"), false, false, false⟩], [], []⟩).listings) ∧
    ((⟨1, 0, 2, ("w"), ("u@x"), 100, false⟩ : ListingRow) ∈
        ([] : List ListingRow) ∨
      (¬ (10 : Nat) < 5 ∧ false = false ∧ false = false ∧
        (100 : Nat) = 100 ∧ (2 : Nat) = 2 ∧ false = false)) :=
  ⟨by decide,
   resale_listing_only_valid ⟨1, 2, ("w"), ("u@x"), false, false, false⟩ 5
    (some ("u@x")) 1 true
    ⟨[⟨2, 10, 100, 5, 1, ("ow"), ("o@x"), false, 0⟩],
      [⟨1, 2, ("w"), ("u@x"), false, false, false⟩], [], []⟩
    ⟨2, 10, 100, 5, 1, ("ow"), ("o@x"), false, 0⟩ (by decide)
    ⟨1, 0, 2, ("w"), ("u@x"), 100, false⟩ (by decide)⟩

/-- isEventUpcoming of Resale.jsx: the event date is strictly after now. -/
def isEventUpcoming (eventDate now : Nat) : Bool :=
  decide (now < eventDate)

/-- fetchResaleTickets of Resale.jsx: select the resale_listings rows with
is_sold false, then keep those whose joined event is not cancelled and is
upcoming.  A listing with no joined event fails the upcoming check (a
comparison on an invalid date is false) and is dropped. -/
def fetchResaleTickets (now : Nat) (db : DB) : List ListingRow :=
  (db.listings.filter (fun l => !l.is_sold)).filter (fun l =>
    match findEvent db l.event_id with
    | some ev => !ev.is_cancelled && isEventUpcoming ev.date now
    | none => false)

/-- fetchListings of Resaleing.jsx: the same unsold selection and
validity filter, except that its filter dereferences item.events without
optional chaining, so a missing joined event makes the whole fetch throw;
that outcome is modelled as none. -/
def fetchListingsResaleing (now : Nat) (db : DB) : Option (List ListingRow) :=
  let unsold := db.listings.filter (fun l => !l.is_sold)
  if unsold.all (fun l => (findEvent db l.event_id).isSome) then
    some (unsold.filter (fun l =>
      match findEvent db l.event_id with
      | some ev => !ev.is_cancelled && isEventUpcoming ev.date now
      | none => false))
  else none

/-- A member of the validity filter has an existing joined event that is
neither cancelled nor past. -/
theorem valid_filter_mem (now : Nat) (db : DB) (L : List ListingRow)
    (l : ListingRow)
    (hl : l ∈ L.filter (fun l =>
      match findEvent db l.event_id with
      | some ev => !ev.is_cancelled && isEventUpcoming ev.date now
      | none => false)) :
    l ∈ L ∧ (findEvent db l.event_id).isSome = true ∧
    (∀ ev, findEvent db l.event_id = some ev →
      ev.is_cancelled = false ∧ now < ev.date) := by
  obtain ⟨hmem, hpred⟩ := List.mem_filter.mp hl
  refine ⟨hmem, ?_, ?_⟩
  · cases hfe : findEvent db l.event_id with
    | none => rw [hfe] at hpred; cases hpred
    | some ev => rfl
  · intro ev hfe
    rw [hfe] at hpred
    have h2 := Bool.and_eq_true_iff.mp hpred
    constructor
    · simpa using h2.1
    · have := h2.2
      unfold isEventUpcoming at this
      simpa using this

/-- C10.  Every listing returned by either resale marketplace fetch has
is_sold false and references an existing event whose is_cancelled flag is
false and whose date is strictly in the future. -/
theorem resale_fetch_filters (now : Nat) (db : DB) (l : ListingRow) :
    (l ∈ fetchResaleTickets now db →
      l.is_sold = false ∧ (findEvent db l.event_id).isSome = true ∧
      (∀ ev, findEvent db l.event_id = some ev →
        ev.is_cancelled = false ∧ now < ev.date)) ∧
    (∀ out, fetchListingsResaleing now db = some out → l ∈ out →
      l.is_sold = false ∧ (findEvent db l.event_id).isSome = true ∧
      (∀ ev, findEvent db l.event_id = some ev →
        ev.is_cancelled = false ∧ now < ev.date)) := by
  constructor
  · intro hl
    obtain ⟨hmem, hsome, hvalid⟩ := valid_filter_mem now db _ l hl
    obtain ⟨_, hsold⟩ := List.mem_filter.mp hmem
    exact ⟨by simpa using hsold, hsome, hvalid⟩
  · intro out hout hl
    unfold fetchListingsResaleing at hout
    by_cases hall : ((db.listings.filter (fun l => !l.is_sold)).all
        (fun l => (findEvent db l.event_id).isSome)) = true
    · rw [if_pos hall] at hout
      obtain rfl := Option.some.injEq _ _ ▸ hout
      obtain ⟨hmem, hsome, hvalid⟩ := valid_filter_mem now db _ l hl
      obtain ⟨_, hsold⟩ := List.mem_filter.mp hmem
      exact ⟨by simpa using hsold, hsome, hvalid⟩
    · rw [if_neg hall] at hout
      cases hout

/-- Witness for C10: the one unsold listing of a live future event is
returned and satisfies the filter guarantees. -/
theorem resale_fetch_filters_inst :
    ((⟨1, 0, 3, ("sw"), ("s@x"), 50, false⟩ : ListingRow) ∈
      fetchResaleTickets 5
        ⟨[⟨3, 9, 50, 5, 0, ("ow"), ("o@x"), false, 0⟩], [], [],
          [⟨1, 0, 3, ("sw"), ("s@x"), 50, false⟩]⟩) ∧
    (⟨1, 0, 3, ("sw"), ("s@x"), 50, false⟩ : ListingRow).is_sold = false ∧
    ((⟨3, 9, 50, 5, 0, ("ow"), ("o@x"), false, 0⟩ : EventRow).is_cancelled
        = false ∧
      (5 : Nat) < 9) :=
  ⟨by decide,
   ((resale_fetch_filters 5
      ⟨[⟨3, 9, 50, 5, 0, ("ow"), ("o@x"), false, 0⟩], [], [],
        [⟨1, 0, 3, ("sw"), ("s@x"), 50, false⟩]⟩
      ⟨1, 0, 3, ("sw"), ("s@x"), 50, false⟩).1 (by decide)).1,
   ((resale_fetch_filters 5
      ⟨[⟨3, 9, 50, 5, 0, ("ow"), ("o@x"), false, 0⟩], [], [],
        [⟨1, 0, 3, ("sw"), ("s@x"), 50, false⟩]⟩
      ⟨1, 0, 3, ("sw"), ("s@x"), 50, false⟩).1 (by decide)).2.2
    ⟨3, 9, 50, 5, 0, ("ow"), ("o@x"), false, 0⟩ (by decide)⟩

end Eventure
